import Mathlib

/-!
Verification of the stem/color consistency analysis of glyphs-mcp
(plugin/GlyphsMCP.glyphsPlugin/Contents/Resources/handlers.py) against its
natural-language specification.

Shallow embedding conventions:
* Python floats are modelled as rationals (ℚ); Python ints as ℤ.
* Python's builtin `round` (round-half-to-even) is modelled by `pyRound`.
* Thickness samples fed to `_find_dominant_stem` are integers in the source
  (`_measure_perpendicular` stores `thickness = int(round(dist))`), so the
  dominant-stem extractor is embedded over `List ℤ`.
* Python dicts with string keys are modelled as association lists looked up
  with `List.lookup`, preserving the source order of the entries.
* Free-text notes attached to evaluation results are kept where they are plain
  table strings; `%`-formatted display strings are modelled by inductive note
  markers carrying the numeric payload (the formatting itself is presentation).
-/

/-- Python's builtin `round` on a rational: round half to even.
`round(2.5) = 2`, `round(1.5) = 2`, `round(-0.5) = 0`. -/
def pyRound (q : ℚ) : ℤ :=
  if q - ⌊q⌋ < 1/2 then ⌊q⌋
  else if (1:ℚ)/2 < q - ⌊q⌋ then ⌊q⌋ + 1
  else if ⌊q⌋ % 2 = 0 then ⌊q⌋ else ⌊q⌋ + 1

/-- Base glyph name: `glyph_name.split(".")[0]` in `handlers.py`, i.e. the
prefix of the name up to the first `.` (suffixed glyphs like `m.ss01`
inherit the pattern of `m`). -/
def baseName (glyphName : String) : String :=
  ⟨glyphName.data.takeWhile (fun c => c ≠ '.')⟩

/-! ## Dominant stem extraction (`_find_dominant_stem`) -/

/-- Clustering loop of `_find_dominant_stem`: walking the tail of the sorted
sample list with current cluster `cur` (started at value `curStart`), a sample
`v` joins the current cluster when `v - curStart ≤ tolerance`, otherwise it
closes the cluster and starts a new one at `v`.  Membership is relative to the
cluster's FIRST element (no chaining). -/
def clustersAux (tolerance : ℤ) (curStart : ℤ) (cur : List ℤ) : List ℤ → List (List ℤ)
  | [] => [cur]
  | v :: rest =>
    if v - curStart ≤ tolerance then clustersAux tolerance curStart (cur ++ [v]) rest
    else cur :: clustersAux tolerance v [v] rest

/-- Cluster decomposition of an (already sorted) sample list, as built by the
grouping loop of `_find_dominant_stem`. -/
def domGroups (sortedVals : List ℤ) (tolerance : ℤ) : List (List ℤ) :=
  match sortedVals with
  | [] => []
  | v :: rest => clustersAux tolerance v [v] rest

/-- Python's `max(first :: rest, key)`: the first element attaining the maximal
key (later elements replace the current best only on a strictly larger key). -/
def pyMaxBy {β : Type} [LinearOrder β] (key : List ℤ → β) (first : List ℤ)
    (rest : List (List ℤ)) : List ℤ :=
  rest.foldl (fun best g => if key best < key g then g else best) first

/-- Python's `min(first :: rest, key)`: the first element attaining the minimal
key. -/
def pyMinBy {β : Type} [LinearOrder β] (key : List ℤ → β) (first : List ℤ)
    (rest : List (List ℤ)) : List ℤ :=
  rest.foldl (fun best g => if key g < key best then g else best) first

/-- First element `g[0]` of a cluster (clusters produced by `domGroups` are
never empty, so the default is never read). -/
def groupHead (g : List ℤ) : ℤ := g.headD 0

/-- Median element `g[len(g) // 2]` of a cluster. -/
def groupMedian (g : List ℤ) : ℤ := g.getD (g.length / 2) 0

/-- Strategy dispatch of `_find_dominant_stem` picking the best cluster:
`"thickest"` prefers clusters with at least two members and takes the one with
the largest first element; `"nearest_ref"` (with a reference value present)
takes the cluster whose median is closest to the reference; anything else is
the `"frequency"` default taking the most populous cluster.  Ties resolve to
the earliest cluster, as Python's `max`/`min` do. -/
def bestGroup (groups : List (List ℤ)) (strategy : String) (reference : Option ℤ) :
    List ℤ :=
  match groups with
  | [] => []
  | g0 :: gs =>
    if strategy = "thickest" then
      match (g0 :: gs).filter (fun g => 2 ≤ g.length) with
      | [] => pyMaxBy groupHead g0 gs
      | m0 :: ms => pyMaxBy groupHead m0 ms
    else if strategy = "nearest_ref" ∧ reference.isSome then
      pyMinBy (fun g => |groupMedian g - reference.getD 0|) g0 gs
    else
      pyMaxBy (fun g => (g.length : ℤ)) g0 gs

/-- Translation of `_find_dominant_stem(values, tolerance, strategy, reference)`
from `handlers.py`: sort the samples ascending, cluster them within `tolerance`
of each cluster's first element, pick a cluster by `strategy`, and return the
median of the chosen cluster (`int(round(best[mid]))` is the identity on the
integer samples). -/
def _find_dominant_stem (values : List ℤ) (tolerance : ℤ) (strategy : String)
    (reference : Option ℤ) : Option ℤ :=
  if values = [] then none
  else
    some (groupMedian
      (bestGroup (domGroups (values.insertionSort (· ≤ ·)) tolerance) strategy reference))

/-! ## Vertical measurement zone (`_auto_measure_glyph` / `_measure_perpendicular`) -/

/-- Vertical metrics of a master. -/
structure MasterMetrics where
  ascender : ℤ
  descender : ℤ
  xHeight : ℤ
  capHeight : ℤ
deriving DecidableEq

/-- Measurement zone `(y_min, y_max)` as the code computes it:
`_auto_measure_glyph` passes `y_min = int(master.descender)`,
`y_max = int(master.xHeight)` when the glyph's case group is `"lowercase"`, and
leaves both at `None` otherwise so that `_measure_perpendicular` fills in its
defaults `y_min = int(master.descender)`, `y_max = int(master.capHeight)`. -/
def measurementZone (caseGroup : String) (master : MasterMetrics) : ℤ × ℤ :=
  if caseGroup = "lowercase" then (master.descender, master.xHeight)
  else (master.descender, master.capHeight)

/-- Measurement zone as the specification (and the code's own docstrings)
describe it: lowercase → `[0, x-height]`; all other case groups →
`[descender, ascender]`.  Stated from the spec's words for comparison with
`measurementZone`, which is translated from the code. -/
def specMeasurementZone (caseGroup : String) (master : MasterMetrics) : ℤ × ℤ :=
  if caseGroup = "lowercase" then (0, master.xHeight)
  else (master.descender, master.ascender)

/-- Node filter of `_measure_perpendicular`: an on-curve node contributes
thickness samples iff its y-coordinate is neither below `y_min` nor above
`y_max` (`if ny < y_min or ny > y_max: continue`). -/
def nodeInZone (y : ℤ) (zone : ℤ × ℤ) : Prop :=
  ¬(y < zone.1 ∨ zone.2 < y)

instance (y : ℤ) (zone : ℤ × ℤ) : Decidable (nodeInZone y zone) := by
  unfold nodeInZone; infer_instance

/-! ## Industry stem patterns and `_evaluate_stem` -/

/-- Shape of one `STEM_PATTERNS` entry: a symmetric tolerance (`maxDev`), a
signed expected-deviation range with its note, or an unreliable marker with
its note. -/
inductive StemPattern where
  | maxDev (d : ℤ)
  | rangeDev (lo hi : ℤ) (note : String)
  | unreliable (note : String)
deriving DecidableEq

/-- Industry stem pattern table from `handlers.py` (expected deviation from the
straight reference: `n` for lowercase, `H` for uppercase and figures), in
source order. -/
def STEM_PATTERNS : List (String × StemPattern) :=
  [("h", .maxDev 1), ("i", .maxDev 1), ("j", .maxDev 1),
   ("k", .maxDev 1), ("m", .maxDev 1), ("n", .maxDev 1),
   ("q", .maxDev 1), ("u", .maxDev 1),
   ("b", .maxDev 2), ("g", .maxDev 2), ("t", .maxDev 2),
   ("l", .maxDev 3),
   ("a", .rangeDev (-4) 0 "slightly thinner stem"),
   ("o", .rangeDev 0 7 "round compensation"),
   ("c", .rangeDev 0 7 "round compensation"),
   ("e", .unreliable "construction-dependent (range=14)"),
   ("f", .unreliable "varies by design (range=14)"),
   ("s", .unreliable "spine inconsistent (range=8)"),
   ("v", .unreliable "diagonal apex artifact"),
   ("w", .unreliable "diagonal apex artifact"),
   ("x", .unreliable "no vertical stems"),
   ("y", .unreliable "diagonal unreliable"),
   ("z", .unreliable "no vertical stems"),
   ("d", .unreliable "mixed stem/bowl (range=6)"),
   ("p", .unreliable "mixed stem/bowl (range=6)"),
   ("r", .unreliable "mixed stem/bowl (range=6)"),
   ("E", .maxDev 1), ("F", .maxDev 1), ("H", .maxDev 1),
   ("J", .maxDev 1), ("K", .maxDev 1), ("L", .maxDev 1),
   ("U", .maxDev 1),
   ("P", .maxDev 2), ("T", .maxDev 2),
   ("A", .rangeDev (-5) (-3) "diagonal thinner"),
   ("B", .rangeDev 0 4 "double bowl compensation"),
   ("C", .rangeDev 0 4 "round compensation"),
   ("D", .rangeDev 0 4 "large bowl compensation"),
   ("O", .rangeDev 0 4 "round compensation"),
   ("Q", .rangeDev 0 4 "round compensation"),
   ("R", .rangeDev 0 3 "bowl + leg compensation"),
   ("I", .rangeDev 0 3 "mass compensation"),
   ("S", .rangeDev (-1) 4 "spine varies"),
   ("G", .rangeDev 0 5 "mixed round/straight"),
   ("M", .unreliable "diagonal strokes (range=9)"),
   ("N", .unreliable "diagonal outliers (range=14)"),
   ("V", .unreliable "diagonal apex"),
   ("W", .unreliable "diagonal apex"),
   ("X", .unreliable "insufficient data"),
   ("Y", .unreliable "diagonal (range=7)"),
   ("Z", .unreliable "insufficient data"),
   ("zero", .rangeDev 0 4 "round compensation (like O)"),
   ("one", .maxDev 3),
   ("two", .unreliable "hook varies (range=31)"),
   ("three", .unreliable "double bowl varies (range=20)"),
   ("four", .rangeDev (-10) 2 "diagonal thinner (like A)"),
   ("five", .unreliable "bowl/flag varies (range=11)"),
   ("six", .rangeDev 0 5 "round compensation"),
   ("seven", .rangeDev 0 10 "thick horizontal dominates"),
   ("eight", .rangeDev 0 5 "spine compensation (like S)"),
   ("nine", .unreliable "bowl varies (range=22)")]

/-- Glyphs whose stem measurement becomes unreliable at heavy weights
(reference stem > 120 units), with the reason recorded in the source table. -/
def _HEAVY_UNRELIABLE : List (String × String) :=
  [("m", "3-stem compression at heavy weight"),
   ("u", "arch widens at heavy weight"),
   ("k", "diagonal leg interferes at heavy weight"),
   ("K", "diagonal leg interferes at heavy weight"),
   ("t", "crossbar junction at heavy weight"),
   ("A", "diagonal perpendicular unreliable at heavy weight"),
   ("one", "flag/serif width dominates at heavy weight"),
   ("three", "double bowl compression at heavy weight"),
   ("five", "bowl/flag junction at heavy weight"),
   ("six", "bowl shape changes at heavy weight"),
   ("seven", "horizontal bar dominates at heavy weight"),
   ("eight", "spine compression at heavy weight")]

/-- Weight factor of `_evaluate_stem`: `max(1.0, reference / 100.0)`. -/
def weightFactor (reference : ℚ) : ℚ := max 1 (reference / 100)

/-- Scaled symmetric tolerance of a `maxDev` entry:
`max(original, round(original * weight_factor))`. -/
def scaledMaxDev (d : ℤ) (reference : ℚ) : ℤ :=
  max d (pyRound (d * weightFactor reference))

/-- Scaled expected range of a `range` entry: both bounds scaled by the weight
factor; additionally, when `weight_factor > 1.2` and the ORIGINAL lower bound
is non-negative, the lower bound is replaced by `-max(1, abs(hi) // 2)` where
`hi` is the already-scaled upper bound (heavy-weight compensation can reverse
direction). -/
def scaledRange (lo hi : ℤ) (reference : ℚ) : ℤ × ℤ :=
  let hiS := pyRound (hi * weightFactor reference)
  ((if 1.2 < weightFactor reference ∧ 0 ≤ lo then -(max 1 (|hiS| / 2))
    else pyRound (lo * weightFactor reference)), hiS)

/-- Evaluation record produced by `_evaluate_stem` (the fields of the result
dict that carry the judgement; free-text notes are presentation only and are
not modelled here). -/
structure StemEval where
  verdict : String
  color : ℤ
  deviation : ℤ
  expectedRange : Option (ℤ × ℤ)
  maxExpected : Option ℤ
deriving DecidableEq

/-- Translation of `_evaluate_stem(glyph_name, measured_value, reference_value)`
from `handlers.py`.  Order of the checks follows the source: heavy-weight
override first (`ref > 120` and base name in `_HEAVY_UNRELIABLE`), then
pattern lookup (unknown glyph → default tolerance 3 scaled), then the
`unreliable` / `range` / `maxDev` entry kinds.  The source's final fallthrough
`pass` (a pattern dict with none of the three keys) is unrepresentable in the
`StemPattern` type because no such entry exists in `STEM_PATTERNS`. -/
def _evaluate_stem (glyphName : String) (measured reference : ℚ) : StemEval :=
  let deviation := pyRound (measured - reference)
  if 120 < reference ∧ (_HEAVY_UNRELIABLE.lookup (baseName glyphName)).isSome then
    ⟨"unreliable", 1, deviation, none, none⟩
  else
    match STEM_PATTERNS.lookup (baseName glyphName) with
    | none =>
      if |deviation| ≤ max 3 (pyRound (3 * weightFactor reference)) then
        ⟨"pass", 4, deviation, none, none⟩
      else ⟨"inconsistent", 0, deviation, none, none⟩
    | some (StemPattern.unreliable _) => ⟨"unreliable", 1, deviation, none, none⟩
    | some (StemPattern.rangeDev lo hi _) =>
      if (scaledRange lo hi reference).1 ≤ deviation ∧
          deviation ≤ (scaledRange lo hi reference).2 then
        ⟨"compensation", 3, deviation, none, none⟩
      else ⟨"inconsistent", 0, deviation, some (scaledRange lo hi reference), none⟩
    | some (StemPattern.maxDev d) =>
      if |deviation| ≤ scaledMaxDev d reference then ⟨"pass", 4, deviation, none, none⟩
      else ⟨"inconsistent", 0, deviation, none, some (scaledMaxDev d reference)⟩

/-! ## Worst-severity aggregation (`handle_compare_stems`) -/

/-- Projection of one evaluation dict as seen by the aggregation loop of
`handle_compare_stems`: the glyph name and the `color` field when present
(`"error"` evaluations carry no color). -/
structure GlyphEval where
  glyph : String
  color : Option ℤ
deriving DecidableEq

/-- One step of the worst-color loop: `if ev.get("glyph") == gname and
"color" in ev: if ev["color"] < worst: worst = ev["color"]`. -/
def updateWorst (gname : String) (worst : ℤ) (ev : GlyphEval) : ℤ :=
  match ev.color with
  | some c => if ev.glyph = gname ∧ c < worst then c else worst
  | none => worst

/-- Worst color of a requested glyph across all masters, as computed by
`handle_compare_stems`: start from the optimistic value 4 and scan every
master's evaluation list. -/
def worstColorFor (gname : String) (perMaster : List (List GlyphEval)) : ℤ :=
  perMaster.foldl (fun w evs => evs.foldl (updateWorst gname) w) 4

/-- Colors that the aggregation loop considers for a glyph inside one
master's evaluation list. -/
def colorsFor (gname : String) (evs : List GlyphEval) : List ℤ :=
  evs.filterMap (fun ev => if ev.glyph = gname then ev.color else none)

/-! ## Industry color patterns and `_evaluate_color` -/

/-- Shape of one `COLOR_PATTERNS` entry: an expected density ratio (percent of
the reference glyph) with its tolerance and reliability class, or an
unreliable marker with its note. -/
inductive ColorPattern where
  | entry (expected maxDev : ℚ) (reliability : String)
  | unreliable (note : String)
deriving DecidableEq

/-- Industry color (ink density) pattern table from `handlers.py`, in source
order. -/
def COLOR_PATTERNS : List (String × ColorPattern) :=
  [("h", .entry 100.2 3 "stable"),
   ("m", .entry 102.3 3 "stable"),
   ("r", .entry 86.3 3 "stable"),
   ("u", .entry 99.3 5 "stable"),
   ("k", .entry 100.2 5 "stable"),
   ("f", .entry 86.1 6 "stable"),
   ("c", .entry 90.2 6 "stable"),
   ("v", .entry 86.3 8 "moderate"),
   ("b", .entry 106.3 9 "moderate"),
   ("d", .entry 106.3 9 "moderate"),
   ("p", .entry 106.3 9 "moderate"),
   ("q", .entry 106.4 9 "moderate"),
   ("o", .entry 100.0 10 "moderate"),
   ("w", .entry 98.9 10 "moderate"),
   ("a", .unreliable "construction-dependent (range=16%)"),
   ("e", .unreliable "construction-dependent (range=19%)"),
   ("g", .unreliable "descender varies (range=14%)"),
   ("i", .unreliable "dot proportion varies (range=10%)"),
   ("j", .unreliable "dot + descender varies (range=13%)"),
   ("l", .unreliable "width proportion varies (range=10%)"),
   ("s", .unreliable "spine varies (range=15%)"),
   ("t", .unreliable "crossbar proportion varies (range=14%)"),
   ("x", .unreliable "diagonal varies (range=12%)"),
   ("y", .unreliable "descender varies (range=16%)"),
   ("z", .unreliable "bar varies (range=17%)"),
   ("n", .entry 100.0 0 "reference"),
   ("H", .entry 100.0 0 "reference"),
   ("I", .entry 100.2 7 "stable"),
   ("U", .entry 95.4 5 "stable"),
   ("F", .entry 92.9 5 "stable"),
   ("T", .entry 78.0 7 "stable"),
   ("K", .entry 99.6 8 "stable"),
   ("L", .entry 79.2 8 "moderate"),
   ("O", .entry 97.1 9 "moderate"),
   ("C", .entry 87.7 10 "moderate"),
   ("Y", .entry 72.9 10 "moderate"),
   ("V", .entry 86.4 10 "moderate"),
   ("J", .entry 79.1 11 "moderate"),
   ("D", .entry 104.8 12 "moderate"),
   ("A", .unreliable "varies by apex design (range=16%)"),
   ("B", .unreliable "double bowl varies (range=23%)"),
   ("E", .unreliable "bar proportion varies (range=16%)"),
   ("G", .unreliable "mixed round/spur varies (range=17%)"),
   ("M", .unreliable "diagonal proportion varies (range=19%)"),
   ("N", .unreliable "diagonal varies (range=12%)"),
   ("P", .unreliable "bowl varies (range=12%)"),
   ("Q", .unreliable "tail varies (range=15%)"),
   ("R", .unreliable "bowl + leg varies (range=15%)"),
   ("S", .unreliable "spine varies (range=18%)"),
   ("W", .unreliable "diagonal proportion varies (range=13%)"),
   ("X", .unreliable "diagonal varies (range=16%)"),
   ("Z", .unreliable "bar varies (range=17%)"),
   ("zero", .entry 108.6 5 "stable"),
   ("one", .entry 92.4 7 "moderate"),
   ("two", .entry 104.3 9 "moderate"),
   ("three", .entry 104.7 6 "stable"),
   ("four", .unreliable "open form varies (range=22%)"),
   ("five", .unreliable "flag/bowl ratio varies (range=19%)"),
   ("six", .unreliable "open form varies (range=22%)"),
   ("seven", .entry 84.5 8 "moderate"),
   ("eight", .entry 124.5 5 "stable"),
   ("nine", .unreliable "bowl varies (range=20%)")]

/-- Marker for the note attached to a color evaluation; the numeric payloads of
the `%`-formatted display strings are carried as data. -/
inductive ColorNote where
  | referenceZero
  | unknownGlyph (ratioPct : ℚ)
  | patternNote (s : String)
  | withinCompensation (ratioPct expected maxDev : ℚ)
  | farFromExpected (ratioPct expected maxDev : ℚ)
  | noReferenceGlyph
deriving DecidableEq

/-- Evaluation record produced by `_evaluate_color`: the verdict fields of the
result dict.  `ratioPct` is `none` exactly when the source never computed
`ratio_pct = measured / reference * 100` (the division-guarded branch). -/
structure ColorEval where
  verdict : String
  color : ℤ
  ratioPct : Option ℚ
  expectedRatioPct : Option ℚ
  note : Option ColorNote
deriving DecidableEq

/-- Python's `round(x, 1)` (one decimal place, half to even), used for the
displayed `ratioPct`. -/
def roundTo1 (q : ℚ) : ℚ := (pyRound (q * 10) : ℚ) / 10

/-- Translation of `_evaluate_color(glyph_name, measured_density,
reference_density)` from `handlers.py`: a non-positive reference density short
circuits to an `unreliable` verdict BEFORE the ratio is computed; otherwise the
density ratio (percent) is compared against the pattern entry, with an unknown
glyph getting a generous ±12% band around 100%. -/
def _evaluate_color (glyphName : String) (measured reference : ℚ) : ColorEval :=
  if reference ≤ 0 then
    ⟨"unreliable", 1, none, none, some ColorNote.referenceZero⟩
  else
    let ratioPct := measured / reference * 100
    match COLOR_PATTERNS.lookup (baseName glyphName) with
    | none =>
      if |ratioPct - 100| ≤ 12 then
        ⟨"pass", 4, some (roundTo1 ratioPct), none, none⟩
      else
        ⟨"inconsistent", 0, some (roundTo1 ratioPct), none,
          some (ColorNote.unknownGlyph ratioPct)⟩
    | some (ColorPattern.unreliable note) =>
      ⟨"unreliable", 1, some (roundTo1 ratioPct), none, some (ColorNote.patternNote note)⟩
    | some (ColorPattern.entry expected maxDev _) =>
      if |ratioPct - expected| ≤ maxDev then
        ⟨"pass", 4, some (roundTo1 ratioPct), some expected, none⟩
      else if |ratioPct - expected| ≤ maxDev * 1.5 then
        ⟨"compensation", 3, some (roundTo1 ratioPct), some expected,
          some (ColorNote.withinCompensation ratioPct expected maxDev)⟩
      else
        ⟨"inconsistent", 0, some (roundTo1 ratioPct), some expected,
          some (ColorNote.farFromExpected ratioPct expected maxDev)⟩

/-- Guard of `handle_compare_color` around `_evaluate_color`: the evaluation is
only invoked when a reference density exists and is truthy and positive
(`if ref_density and ref_density > 0`); otherwise the glyph is reported
`unreliable` with a "No reference glyph available" note. -/
def compareColorEval (glyphName : String) (density : ℚ) (refDensity : Option ℚ) :
    ColorEval :=
  match refDensity with
  | some r =>
    if ¬r = 0 ∧ 0 < r then _evaluate_color glyphName density r
    else ⟨"unreliable", 1, none, none, some ColorNote.noReferenceGlyph⟩
  | none => ⟨"unreliable", 1, none, none, some ColorNote.noReferenceGlyph⟩

/-! ## Related forms (`handle_check_related_forms`) -/

/-- One entry of the static `_RELATED_FORM_PAIRS` table: two glyph names, the
expected range of `width_a / width_b * 100`, a severity, and a note. -/
structure RelatedFormPair where
  a : String
  b : String
  lo : ℚ
  hi : ℚ
  severity : String
  note : String
deriving DecidableEq

/-- Static related-forms table from `handlers.py`, in source order. -/
def _RELATED_FORM_PAIRS : List RelatedFormPair :=
  [⟨"six", "nine", 97, 104, "high", "rotated forms — should match width"⟩,
   ⟨"zero", "O", 65, 93, "medium", "zero narrower and lighter than O"⟩,
   ⟨"three", "five", 92, 106, "medium", "related open-bowl figures"⟩,
   ⟨"three", "B", 78, 99, "medium", "three narrower than B (double bowls)"⟩,
   ⟨"eight", "S", 92, 119, "low", "8 related to S-shape"⟩,
   ⟨"one", "I", 106, 185, "low", "one wider than I (flag and crossbar add width)"⟩]

/-- Verdict and color assigned to one related-forms pair by
`handle_check_related_forms` from the two advance widths: `pass` (4) when the
percent ratio lies in the expected range, otherwise `inconsistent` (0) /
`warning` (3) / `info` (−1) according to the pair's severity. -/
def relatedFormEval (pair : RelatedFormPair) (wa wb : ℚ) : String × ℤ :=
  let ratio := wa / wb * 100
  if pair.lo ≤ ratio ∧ ratio ≤ pair.hi then ("pass", 4)
  else if pair.severity = "high" then ("inconsistent", 0)
  else if pair.severity = "medium" then ("warning", 3)
  else ("info", -1)

/-! ## Helper lemmas -/

theorem floor_le_pyRound (q : ℚ) : ⌊q⌋ ≤ pyRound q := by
  unfold pyRound; split_ifs <;> omega

theorem pyRound_le_floor_add_one (q : ℚ) : pyRound q ≤ ⌊q⌋ + 1 := by
  unfold pyRound; split_ifs <;> omega

theorem pyRound_mono {a b : ℚ} (h : a ≤ b) : pyRound a ≤ pyRound b := by
  rcases lt_or_eq_of_le (Int.floor_mono h : ⌊a⌋ ≤ ⌊b⌋) with hf | hf
  · calc pyRound a ≤ ⌊a⌋ + 1 := pyRound_le_floor_add_one a
      _ ≤ ⌊b⌋ := by omega
      _ ≤ pyRound b := floor_le_pyRound b
  · unfold pyRound
    rw [← hf]
    split_ifs <;> first | omega | linarith

theorem weightFactor_mono {r₁ r₂ : ℚ} (h : r₁ ≤ r₂) :
    weightFactor r₁ ≤ weightFactor r₂ := by
  unfold weightFactor
  exact max_le_max le_rfl (by linarith)

theorem scaledMaxDev_mono {d : ℤ} {r₁ r₂ : ℚ} (hd : 0 ≤ d) (h : r₁ ≤ r₂) :
    scaledMaxDev d r₁ ≤ scaledMaxDev d r₂ := by
  unfold scaledMaxDev
  refine max_le_max le_rfl (pyRound_mono ?_)
  have hd' : (0:ℚ) ≤ (d : ℚ) := by exact_mod_cast hd
  exact mul_le_mul_of_nonneg_left (weightFactor_mono h) hd'

theorem sort_eq_of_perm {v₁ v₂ : List ℤ} (h : v₁.Perm v₂) :
    v₁.insertionSort (· ≤ ·) = v₂.insertionSort (· ≤ ·) :=
  List.eq_of_perm_of_sorted
    ((List.perm_insertionSort _ v₁).trans (h.trans (List.perm_insertionSort _ v₂).symm))
    (List.sorted_insertionSort _ _) (List.sorted_insertionSort _ _)

theorem foldl_updateWorst (g : String) (evs : List GlyphEval) (w : ℤ) :
    evs.foldl (updateWorst g) w = (colorsFor g evs).foldl min w := by
  induction evs generalizing w with
  | nil => rfl
  | cons ev rest ih =>
    rw [List.foldl_cons]
    unfold colorsFor
    rw [List.filterMap_cons]
    by_cases hg : ev.glyph = g
    · rcases hc : ev.color with _ | c
      · have h1 : updateWorst g w ev = w := by simp [updateWorst, hc]
        simp only [if_pos hg, hc, h1]
        exact ih w
      · have h1 : updateWorst g w ev = min w c := by
          simp only [updateWorst, hc, hg, eq_self_iff_true, true_and]
          rcases le_or_lt w c with h | h
          · rw [if_neg (not_lt.mpr h), min_eq_left h]
          · rw [if_pos h, min_eq_right h.le]
        simp only [if_pos hg, hc, h1]
        rw [List.foldl_cons]
        exact ih (min w c)
    · have h1 : updateWorst g w ev = w := by
        rcases hc : ev.color with _ | c
        · simp [updateWorst, hc]
        · simp only [updateWorst, hc]
          exact if_neg (fun hand => hg hand.1)
      simp only [if_neg hg, h1]
      exact ih w

theorem worstColorFor_eq_foldl_min (g : String) (pm : List (List GlyphEval)) (w : ℤ) :
    pm.foldl (fun w evs => evs.foldl (updateWorst g) w) w
      = ((pm.map (colorsFor g)).flatten).foldl min w := by
  induction pm generalizing w with
  | nil => rfl
  | cons evs rest ih =>
    rw [List.foldl_cons, List.map_cons, List.flatten_cons, List.foldl_append,
      foldl_updateWorst, ih]

/-! ## Claim theorems -/

/-- C1 counterexample: the sample list [80, 80, 78, 82, 80] with tolerance 3
does NOT form a single cluster — sorted, the scan starts a new cluster at 82
because 82 exceeds the first cluster's start 78 plus the tolerance 3. -/
theorem dominant_stem_example_not_single_cluster :
    (domGroups (([80, 80, 78, 82, 80] : List ℤ).insertionSort (· ≤ ·)) 3).length ≠ 1 := by
  decide

/-- C1 (amended): dominant-value extraction sorts the samples ascending and
forms clusters by scanning left to right, starting a new cluster whenever the
current value exceeds the cluster's first element plus the tolerance; for the
input [80, 80, 78, 82, 80] with tolerance 3 this yields the two clusters
[78, 80, 80, 80] and [82], and the frequency strategy picks the larger first
cluster and returns 80, its middle element, as an integer. -/
theorem dominant_stem_example_clusters :
    domGroups (([80, 80, 78, 82, 80] : List ℤ).insertionSort (· ≤ ·)) 3
      = [[78, 80, 80, 80], [82]] ∧
    _find_dominant_stem [80, 80, 78, 82, 80] 3 "frequency" none = some 80 := by
  decide

/-- C7: dominant-value extraction is order-independent — for every tolerance,
strategy and reference value, two permutations of the same sample multiset
yield the same result, because the function only inspects the sorted list. -/
theorem find_dominant_stem_perm_invariant (v₁ v₂ : List ℤ) (tolerance : ℤ)
    (strategy : String) (reference : Option ℤ) (h : v₁.Perm v₂) :
    _find_dominant_stem v₁ tolerance strategy reference
      = _find_dominant_stem v₂ tolerance strategy reference := by
  by_cases h₁ : v₁ = []
  · subst h₁
    rw [h.symm.eq_nil]
  · have h₂ : ¬v₂ = [] := fun e => h₁ (by rw [e] at h; exact h.eq_nil)
    unfold _find_dominant_stem
    rw [if_neg h₁, if_neg h₂, sort_eq_of_perm h]

/-- Witness for C7 at a concrete permutation pair. -/
theorem find_dominant_stem_perm_invariant_witness :
    ([80, 78] : List ℤ).Perm [78, 80] ∧
    _find_dominant_stem [80, 78] 3 "frequency" none
      = _find_dominant_stem [78, 80] 3 "frequency" none :=
  ⟨List.Perm.swap 78 80 [],
   find_dominant_stem_perm_invariant _ _ _ _ _ (List.Perm.swap 78 80 [])⟩

/-- C2 (code behaviour at the failing input): with master metrics
ascender 750, descender −200, x-height 500, cap-height 700, the code's
measurement zone is [−200, 500] for lowercase and [−200, 700] for every other
case group — not the [0, x-height] and [descender, ascender] zones the claim
(and the code's own docstrings) state.  A lowercase node at y = −100
contributes samples under the code but lies outside the claimed zone, and a
node at y = 730 (between cap-height and ascender) contributes nothing under
the code but lies inside the claimed zone. -/
theorem measurement_zone_code_vs_spec :
    measurementZone "lowercase" ⟨750, -200, 500, 700⟩ = (-200, 500) ∧
    specMeasurementZone "lowercase" ⟨750, -200, 500, 700⟩ = (0, 500) ∧
    nodeInZone (-100) (measurementZone "lowercase" ⟨750, -200, 500, 700⟩) ∧
    ¬nodeInZone (-100) (specMeasurementZone "lowercase" ⟨750, -200, 500, 700⟩) ∧
    measurementZone "uppercase" ⟨750, -200, 500, 700⟩ = (-200, 700) ∧
    specMeasurementZone "uppercase" ⟨750, -200, 500, 700⟩ = (-200, 750) ∧
    ¬nodeInZone 730 (measurementZone "uppercase" ⟨750, -200, 500, 700⟩) ∧
    nodeInZone 730 (specMeasurementZone "uppercase" ⟨750, -200, 500, 700⟩) := by
  decide

/-- C3: for a `maxDev` pattern entry with deviation `d`, the scaled stem
tolerance `max(d, round(d * max(1, reference/100)))` is non-decreasing in the
reference value — in particular at reference 200 it is at least its value at
reference 100 — and, whenever the heavy-weight override does not fire, the
verdict is `pass` iff the absolute (rounded) deviation is at most the scaled
tolerance, else `inconsistent`. -/
theorem stem_maxDev_scaled_tolerance_monotone (g : String) (m r r₁ r₂ : ℚ) (d : ℤ)
    (hpat : STEM_PATTERNS.lookup (baseName g) = some (StemPattern.maxDev d))
    (hd : 0 ≤ d) (h12 : r₁ ≤ r₂)
    (hheavy : ¬(120 < r ∧ (_HEAVY_UNRELIABLE.lookup (baseName g)).isSome)) :
    scaledMaxDev d r₁ ≤ scaledMaxDev d r₂ ∧
    scaledMaxDev d 100 ≤ scaledMaxDev d 200 ∧
    (_evaluate_stem g m r).verdict
      = (if |pyRound (m - r)| ≤ scaledMaxDev d r then "pass" else "inconsistent") := by
  refine ⟨scaledMaxDev_mono hd h12, scaledMaxDev_mono hd (by norm_num), ?_⟩
  simp only [_evaluate_stem, if_neg hheavy, hpat]
  split_ifs <;> rfl

/-- Witness for C3 at glyph "h" (maxDev 1), measured 101, reference 100,
reference pair 100 ≤ 200. -/
theorem stem_maxDev_scaled_tolerance_monotone_witness :
    (STEM_PATTERNS.lookup (baseName "h") = some (StemPattern.maxDev 1) ∧
      (0:ℤ) ≤ 1 ∧ (100:ℚ) ≤ 200 ∧
      ¬(120 < (100:ℚ) ∧ (_HEAVY_UNRELIABLE.lookup (baseName "h")).isSome)) ∧
    (scaledMaxDev 1 100 ≤ scaledMaxDev 1 200 ∧
      scaledMaxDev 1 100 ≤ scaledMaxDev 1 200 ∧
      (_evaluate_stem "h" 101 100).verdict
        = (if |pyRound ((101:ℚ) - 100)| ≤ scaledMaxDev 1 100 then "pass"
          else "inconsistent")) :=
  ⟨⟨by decide, by decide, by decide, by decide⟩,
   stem_maxDev_scaled_tolerance_monotone "h" 101 100 100 200 1
     (by decide) (by decide) (by decide) (by decide)⟩

/-- C4: for every glyph whose base name is in the heavy-weight override table
`_HEAVY_UNRELIABLE` and every measured value, stem evaluation with a reference
value strictly greater than 120 returns verdict `unreliable` with color 1,
regardless of the measured deviation. -/
theorem stem_heavy_weight_override (g : String) (m r : ℚ)
    (hheavy : (_HEAVY_UNRELIABLE.lookup (baseName g)).isSome) (hr : 120 < r) :
    (_evaluate_stem g m r).verdict = "unreliable" ∧ (_evaluate_stem g m r).color = 1 := by
  have hcond : 120 < r ∧ (_HEAVY_UNRELIABLE.lookup (baseName g)).isSome := ⟨hr, hheavy⟩
  simp only [_evaluate_stem, if_pos hcond]
  exact ⟨trivial, trivial⟩

/-- Witness for C4: glyph "m" with reference stem 150 (and measured value 150,
i.e. zero deviation) yields verdict `unreliable`. -/
theorem stem_heavy_weight_override_witness :
    ((_HEAVY_UNRELIABLE.lookup (baseName "m")).isSome ∧ (120:ℚ) < 150) ∧
    ((_evaluate_stem "m" 150 150).verdict = "unreliable" ∧
      (_evaluate_stem "m" 150 150).color = 1) :=
  ⟨⟨by decide, by decide⟩,
   stem_heavy_weight_override "m" 150 150 (by decide) (by decide)⟩

/-- C5: for a `range` pattern entry `[lo, hi]` (with the heavy-weight override
not firing), stem evaluation scales both bounds by the weight factor; when the
weight factor exceeds 1.2 and the original `lo` is non-negative the lower
bound is instead `-max(1, |hi|/2)` of the scaled upper bound; and the verdict
is `compensation` iff the (rounded) deviation lies within the resulting range,
else `inconsistent`. -/
theorem stem_range_scaling_and_verdict (g : String) (m r : ℚ) (lo hi : ℤ)
    (note : String)
    (hpat : STEM_PATTERNS.lookup (baseName g) = some (StemPattern.rangeDev lo hi note))
    (hheavy : ¬(120 < r ∧ (_HEAVY_UNRELIABLE.lookup (baseName g)).isSome)) :
    (scaledRange lo hi r).2 = pyRound (hi * weightFactor r) ∧
    ((1.2 < weightFactor r ∧ 0 ≤ lo) →
      (scaledRange lo hi r).1 = -(max 1 (|(scaledRange lo hi r).2| / 2))) ∧
    (¬(1.2 < weightFactor r ∧ 0 ≤ lo) →
      (scaledRange lo hi r).1 = pyRound (lo * weightFactor r)) ∧
    (_evaluate_stem g m r).verdict
      = (if (scaledRange lo hi r).1 ≤ pyRound (m - r) ∧
            pyRound (m - r) ≤ (scaledRange lo hi r).2
        then "compensation" else "inconsistent") := by
  refine ⟨rfl, ?_, ?_, ?_⟩
  · intro hw
    simp only [scaledRange]
    rw [if_pos hw]
  · intro hw
    simp only [scaledRange]
    rw [if_neg hw]
  · simp only [_evaluate_stem, if_neg hheavy, hpat]
    split_ifs <;> rfl

/-- Witness for C5 at glyph "o" (range [0, 7]), measured 150, reference 150:
the weight factor is 1.5 > 1.2 and the original lower bound 0 is non-negative,
so the range widens on the negative side; the zero deviation lies inside it
and the verdict is `compensation`. -/
theorem stem_range_scaling_and_verdict_witness :
    (STEM_PATTERNS.lookup (baseName "o")
        = some (StemPattern.rangeDev 0 7 "round compensation") ∧
      ¬(120 < (150:ℚ) ∧ (_HEAVY_UNRELIABLE.lookup (baseName "o")).isSome)) ∧
    ((scaledRange 0 7 150).2 = pyRound (7 * weightFactor 150) ∧
      ((1.2 < weightFactor 150 ∧ (0:ℤ) ≤ 0) →
        (scaledRange 0 7 150).1 = -(max 1 (|(scaledRange 0 7 150).2| / 2))) ∧
      (¬(1.2 < weightFactor 150 ∧ (0:ℤ) ≤ 0) →
        (scaledRange 0 7 150).1 = pyRound (0 * weightFactor 150)) ∧
      (_evaluate_stem "o" 150 150).verdict
        = (if (scaledRange 0 7 150).1 ≤ pyRound ((150:ℚ) - 150) ∧
              pyRound ((150:ℚ) - 150) ≤ (scaledRange 0 7 150).2
          then "compensation" else "inconsistent")) :=
  ⟨⟨by decide, by decide⟩,
   stem_range_scaling_and_verdict "o" 150 150 0 7 "round compensation"
     (by decide) (by decide)⟩

/-- C6: in the batch stem comparison, the aggregated worst severity of a
requested glyph equals the minimum — starting from the optimistic value 4 —
of the severity (color) values carried by its evaluations across all masters;
in particular a glyph scoring pass (4) on one master and inconsistent (0) on
another aggregates to 0. -/
theorem compare_stems_worst_severity :
    (∀ (g : String) (perMaster : List (List GlyphEval)),
      worstColorFor g perMaster
        = ((perMaster.map (colorsFor g)).flatten).foldl min 4) ∧
    worstColorFor "a" [[⟨"a", some 4⟩], [⟨"a", some 0⟩]] = 0 := by
  constructor
  · intro g perMaster
    exact worstColorFor_eq_foldl_min g perMaster 4
  · decide

/-- C8: a color evaluation whose reference density is zero or negative returns
verdict `unreliable` (color 1) with an explanatory note and no density ratio is
ever computed (`ratioPct = none`, i.e. no division by the reference); the
guarded evaluation of `handle_compare_color` computes a ratio only when a
strictly positive reference density exists. -/
theorem color_zero_reference_guard (g : String) (m r : ℚ) (hr : r ≤ 0) :
    (_evaluate_color g m r).verdict = "unreliable" ∧
    (_evaluate_color g m r).color = 1 ∧
    (_evaluate_color g m r).note = some ColorNote.referenceZero ∧
    (_evaluate_color g m r).ratioPct = none ∧
    (compareColorEval g m (some r)).ratioPct = none ∧
    (compareColorEval g m none).ratioPct = none ∧
    (∀ (refD : Option ℚ) (x : ℚ),
      (compareColorEval g m refD).ratioPct = some x → ∃ rr, refD = some rr ∧ 0 < rr) := by
  have h0 : _evaluate_color g m r
      = ⟨"unreliable", 1, none, none, some ColorNote.referenceZero⟩ := by
    unfold _evaluate_color
    rw [if_pos hr]
  have hcond : ¬(¬r = 0 ∧ 0 < r) := fun hc => absurd hc.2 (not_lt.mpr hr)
  have h1 : compareColorEval g m (some r)
      = ⟨"unreliable", 1, none, none, some ColorNote.noReferenceGlyph⟩ := by
    simp only [compareColorEval]
    rw [if_neg hcond]
  refine ⟨by rw [h0], by rw [h0], by rw [h0], by rw [h0], by rw [h1], rfl, ?_⟩
  intro refD x hx
  rcases refD with _ | rr
  · simp [compareColorEval] at hx
  · by_cases hcc : ¬rr = 0 ∧ 0 < rr
    · exact ⟨rr, rfl, hcc.2⟩
    · simp only [compareColorEval] at hx
      rw [if_neg hcc] at hx
      simp at hx

/-- Witness for C8 at reference density 0. -/
theorem color_zero_reference_guard_witness :
    (0:ℚ) ≤ 0 ∧
    (_evaluate_color "n" 5 0).verdict = "unreliable" ∧
    (_evaluate_color "n" 5 0).note = some ColorNote.referenceZero ∧
    (_evaluate_color "n" 5 0).ratioPct = none ∧
    (compareColorEval "n" 5 (some 0)).ratioPct = none :=
  ⟨le_refl 0,
   (color_zero_reference_guard "n" 5 0 (le_refl 0)).1,
   (color_zero_reference_guard "n" 5 0 (le_refl 0)).2.2.1,
   (color_zero_reference_guard "n" 5 0 (le_refl 0)).2.2.2.1,
   (color_zero_reference_guard "n" 5 0 (le_refl 0)).2.2.2.2.1⟩

/-- C10: for a glyph with a reliable color pattern entry (expected ratio `e`,
tolerance `maxDev`) and a positive reference density, the verdict is `pass`
when the ratio deviates from `e` by at most `maxDev`, `compensation` when the
deviation exceeds `maxDev` but is at most 1.5 × `maxDev`, and `inconsistent`
beyond that — the intermediate compensation band at 1.5 × the stated
tolerance. -/
theorem color_compensation_band (g : String) (m r e md : ℚ) (rel : String)
    (hpat : COLOR_PATTERNS.lookup (baseName g) = some (ColorPattern.entry e md rel))
    (hr : 0 < r) :
    ((_evaluate_color g m r).verdict = "pass" ↔ |m / r * 100 - e| ≤ md) ∧
    ((_evaluate_color g m r).verdict = "compensation" ↔
      md < |m / r * 100 - e| ∧ |m / r * 100 - e| ≤ md * 1.5) ∧
    ((_evaluate_color g m r).verdict = "inconsistent" ↔ md * 1.5 < |m / r * 100 - e|) := by
  have hng : ¬(r ≤ 0) := not_le.mpr hr
  simp only [_evaluate_color, if_neg hng, hpat]
  by_cases h1 : |m / r * 100 - e| ≤ md
  · rw [if_pos h1]
    have hmd : (0:ℚ) ≤ md := le_trans (abs_nonneg _) h1
    exact ⟨⟨fun _ => h1, fun _ => rfl⟩,
      ⟨fun hv => by simp at hv, fun hb => absurd hb.1 (not_lt.mpr h1)⟩,
      ⟨fun hv => by simp at hv,
       fun hb => absurd hb (not_lt.mpr (le_trans h1 (by linarith)))⟩⟩
  · rw [if_neg h1]
    by_cases h2 : |m / r * 100 - e| ≤ md * 1.5
    · rw [if_pos h2]
      exact ⟨⟨fun hv => by simp at hv, fun hb => absurd hb h1⟩,
        ⟨fun _ => ⟨not_le.mp h1, h2⟩, fun _ => rfl⟩,
        ⟨fun hv => by simp at hv, fun hb => absurd hb (not_lt.mpr h2)⟩⟩
    · rw [if_neg h2]
      exact ⟨⟨fun hv => by simp at hv, fun hb => absurd hb h1⟩,
        ⟨fun hv => by simp at hv, fun hb => absurd hb.2 h2⟩,
        ⟨fun _ => not_le.mp h2, fun _ => rfl⟩⟩

/-- Witness for C10 at glyph "h" (expected 100.2, maxDev 3), measured density
ratio exactly the expected value. -/
theorem color_compensation_band_witness :
    (COLOR_PATTERNS.lookup (baseName "h")
        = some (ColorPattern.entry 100.2 3 "stable") ∧ (0:ℚ) < 100) ∧
    ((_evaluate_color "h" 100.2 100).verdict = "pass" ↔
      |(100.2:ℚ) / 100 * 100 - 100.2| ≤ 3) :=
  ⟨⟨by rw [show baseName "h" = "h" from by decide]; norm_num [COLOR_PATTERNS, List.lookup],
    by decide⟩,
   (color_compensation_band "h" 100.2 100 100.2 3 "stable"
     (by rw [show baseName "h" = "h" from by decide]; norm_num [COLOR_PATTERNS, List.lookup])
     (by decide)).1⟩

/-- C9: the first related-forms pair is six/nine with expected width-ratio
range [97, 104] and severity "high"; with width(six) = 600 and
width(nine) = 620 the percent ratio 600/620×100 (≈ 96.8, rounding to 96.8 at
one decimal) lies below the range, so the verdict is `inconsistent` with
color 0. -/
theorem related_forms_six_nine_example :
    _RELATED_FORM_PAIRS.head? = some ⟨"six", "nine", 97, 104, "high",
      "rotated forms — should match width"⟩ ∧
    ((600:ℚ) / 620 * 100) < 97 ∧
    roundTo1 ((600:ℚ) / 620 * 100) = 968/10 ∧
    relatedFormEval ⟨"six", "nine", 97, 104, "high",
      "rotated forms — should match width"⟩ 600 620 = ("inconsistent", 0) := by
  refine ⟨rfl, by norm_num, ?_, ?_⟩
  · norm_num [roundTo1, pyRound]
  · norm_num [relatedFormEval]
